import Mathlib

/-!
Verification of the Smart-Retail-360 edge-device simulator
(`edge_device_sim/iot_edge_service.py` and `edge_device_sim/mqtt_fallback.py`)
against its natural-language specification.

Shallow embedding conventions:
* Python machine integers are `Nat`/`Int` (no overflow is reachable here);
  `len(log) - 1` on an empty list is the Python value `-1`, so matchIndex
  values are `Int`.
* Python floats are `ℝ`; `np.mean`/`np.std` are the exact population mean
  and standard deviation.
* `random.random()`-driven results (vote grants, replication successes,
  publish outcomes) are parameters: a function from the peer / message id
  to `Bool`, quantified over in the theorems.
* A Python `dict` is an insertion-ordered association list.
* A method that mutates `self` becomes a function returning the new state;
  a loop body raising before any mutation leaves the state unchanged.
-/

namespace SmartRetail360

/-- Association-list lookup, mirroring Python `dict.get` / `dict[k]`. -/
def lookupAssoc {β : Type} : List (String × β) → String → Option β
  | [], _ => none
  | (k, v) :: rest, key => if k = key then some v else lookupAssoc rest key

/-- Association-list assignment, mirroring Python `dict[k] = v`: replace the
binding if the key is present, append it otherwise. -/
def setAssoc {β : Type} : List (String × β) → String → β → List (String × β)
  | [], key, v => [(key, v)]
  | (k, w) :: rest, key, v =>
      if k = key then (key, v) :: rest else (k, w) :: setAssoc rest key v

namespace Raft

/-- The `state` field of `RaftConsensus`: `'follower' | 'candidate' | 'leader'`. -/
inductive NodeState where
  | follower
  | candidate
  | leader
deriving DecidableEq, Repr

/-- One replicated log entry, as built in `RaftConsensus.append_entries`:
`{'term': current_term, 'index': len(log), 'command': entry}`.  Commands are
kept opaque as their `type` string. -/
structure LogEntry where
  term : Nat
  index : Nat
  command : String
deriving DecidableEq, Repr

/-- The mutable state of one `RaftConsensus` instance
(`iot_edge_service.py`, `RaftConsensus.__init__`). -/
structure RaftState where
  node_id : String
  nodes : List String
  current_term : Nat
  voted_for : Option String
  state : NodeState
  leader_id : Option String
  log : List LogEntry
  commit_index : Nat
  last_applied : Nat
  next_index : List (String × Nat)
  match_index : List (String × Int)
deriving DecidableEq, Repr

/-- `RaftConsensus.__init__(node_id, nodes)`. -/
def RaftState.init (node_id : String) (nodes : List String) : RaftState :=
  { node_id := node_id
    nodes := nodes
    current_term := 0
    voted_for := none
    state := NodeState.follower
    leader_id := none
    log := []
    commit_index := 0
    last_applied := 0
    next_index := []
    match_index := [] }

/-- `RaftConsensus.become_leader`: set state/leader and initialize
`next_index[node] = len(log)`, `match_index[node] = 0` for every node. -/
def become_leader (s : RaftState) : RaftState :=
  { s with
    state := NodeState.leader
    leader_id := some s.node_id
    next_index := s.nodes.foldl (fun d n => setAssoc d n s.log.length) s.next_index
    match_index := s.nodes.foldl (fun d n => setAssoc d n (0 : Int)) s.match_index }

/-- Number of votes collected in `RaftConsensus.start_election`: one for self
plus one per other node whose simulated `request_vote` call (the `grant`
parameter, standing for `random.random() > 0.3`) returns true. -/
def votes_received (s : RaftState) (grant : String → Bool) : Nat :=
  1 + (s.nodes.filter (fun n => n != s.node_id && grant n)).length

/-- `RaftConsensus.start_election`, with the simulated per-peer vote outcome
as the parameter `grant`.  The Python majority test
`votes_received > len(self.nodes) / 2` (exact float division) is the integer
condition `len(nodes) < 2 * votes_received`. -/
def start_election (s : RaftState) (grant : String → Bool) : RaftState :=
  let s1 : RaftState :=
    { s with
      current_term := s.current_term + 1
      state := NodeState.candidate
      voted_for := some s.node_id
      leader_id := none }
  if s1.nodes.length < 2 * votes_received s1 grant then become_leader s1
  else { s1 with state := NodeState.follower }

/-- The `for entry in entries` loop body of `RaftConsensus.append_entries`:
each command is wrapped as `{'term': current_term, 'index': len(log),
'command': entry}` and appended to the log. -/
def appendFold (s : RaftState) (entries : List String) : RaftState :=
  entries.foldl
    (fun st e => { st with log := st.log ++ [⟨st.current_term, st.log.length, e⟩] })
    s

/-- `RaftConsensus.append_entries(entries)`: a non-leader returns `False`;
a leader appends every wrapped command and returns `True`. -/
def append_entries (s : RaftState) (entries : List String) : RaftState × Bool :=
  if s.state = NodeState.leader then (appendFold s entries, true)
  else (s, false)

/-- `RaftConsensus.replicate_log`, with the simulated per-peer replication
outcome (`random.random() > 0.2`) as the parameter `success`.  On success the
peer's matchIndex becomes `len(log) - 1` (a Python int, `-1` on an empty
log). -/
def replicate_log (s : RaftState) (success : String → Bool) : RaftState :=
  if s.state = NodeState.leader then
    { s with
      match_index :=
        s.nodes.foldl
          (fun d n =>
            if n != s.node_id && success n then
              setAssoc d n ((s.log.length : Int) - 1)
            else d)
          s.match_index }
  else s

/-- Insertion into a sorted list of `Int`, the building block of Python's
`sorted`. -/
def insertSorted (x : Int) : List Int → List Int
  | [] => [x]
  | y :: ys => if x ≤ y then x :: y :: ys else y :: insertSorted x ys

/-- Ascending sort of a list of `Int`, modelling Python `sorted(...)`. -/
def sortInts : List Int → List Int
  | [] => []
  | x :: xs => insertSorted x (sortInts xs)

/-- `RaftConsensus.update_commit_index`: a leader takes the middle element of
the sorted matchIndex values (`sorted_indices[len(sorted_indices) // 2]`) and
adopts it when it strictly exceeds `commit_index`.  An empty matchIndex makes
the Python subscript raise before any mutation, leaving the state unchanged. -/
def update_commit_index (s : RaftState) : RaftState :=
  if s.state = NodeState.leader then
    match (sortInts (s.match_index.map Prod.snd)).get?
        ((sortInts (s.match_index.map Prod.snd)).length / 2) with
    | none => s
    | some majority =>
        if (s.commit_index : Int) < majority then
          { s with commit_index := majority.toNat }
        else s
  else s

/-- The `while self.last_applied < self.commit_index` loop of
`RaftConsensus.apply_committed_entries`, with explicit fuel (the loop runs at
most `commit_index - last_applied` times).  Each iteration first increments
`last_applied` and then executes `log[last_applied]` only when
`last_applied < len(log)`; the accumulator records the executed entries in
order. -/
def applyLoop : Nat → RaftState → List LogEntry → RaftState × List LogEntry
  | 0, s, acc => (s, acc)
  | fuel + 1, s, acc =>
    if s.last_applied < s.commit_index then
      applyLoop fuel { s with last_applied := s.last_applied + 1 }
        (match s.log.get? (s.last_applied + 1) with
          | some e => acc ++ [e]
          | none => acc)
    else (s, acc)

/-- `RaftConsensus.apply_committed_entries`; the second component is the
sequence of log entries passed to `execute_command`, in execution order. -/
def apply_committed_entries (s : RaftState) : RaftState × List LogEntry :=
  applyLoop (s.commit_index - s.last_applied) s []

/-- `RaftConsensus.receive_heartbeat(leader_id, term)`. -/
def receive_heartbeat (s : RaftState) (lid : String) (term : Nat) : RaftState :=
  if s.current_term ≤ term then
    { s with
      current_term := term
      leader_id := some lid
      state := NodeState.follower }
  else s

/-- One externally triggerable call on a `RaftConsensus` participant, with the
simulated random outcomes made explicit parameters. -/
inductive RaftOp where
  | election (grant : String → Bool)
  | append (entries : List String)
  | replicate (success : String → Bool)
  | updateCommit
  | applyEntries
  | heartbeat (lid : String) (term : Nat)

/-- State transition of a participant under one call. -/
def stepOp (s : RaftState) : RaftOp → RaftState
  | RaftOp.election g => start_election s g
  | RaftOp.append es => (append_entries s es).1
  | RaftOp.replicate f => replicate_log s f
  | RaftOp.updateCommit => update_commit_index s
  | RaftOp.applyEntries => (apply_committed_entries s).1
  | RaftOp.heartbeat l t => receive_heartbeat s l t

/-- State of a participant after a finite sequence of calls from the initial
follower state. -/
def runOps (node : String) (nodes : List String) (ops : List RaftOp) : RaftState :=
  ops.foldl stepOp (RaftState.init node nodes)

/-- Every matchIndex value is either ≤ 0 (initialization, or `-1` from
replicating an empty log) or a valid log position `< len(log)`. -/
def MatchOk (s : RaftState) : Prop :=
  ∀ p ∈ s.match_index, p.2 ≤ 0 ∨ p.2 < (s.log.length : Int)

/-- The consensus index invariant of the specification:
`lastApplied ≤ commitIndex ≤ len(log)`, together with the auxiliary bound on
matchIndex values needed to preserve it. -/
def IndexInv (s : RaftState) : Prop :=
  s.last_applied ≤ s.commit_index ∧ s.commit_index ≤ s.log.length ∧ MatchOk s

/-- The group used in the concrete counterexample runs. -/
def demoNodes : List String := ["n1", "n2", "n3"]

/-- A leader state of the demo group holding two committed entries: the run
elects `n1` (all votes granted), appends commands `c0`, `c1`, replicates to
both peers, and recomputes the commit index (which becomes 1). -/
def demoCommittedState : RaftState :=
  update_commit_index
    (replicate_log
      ((append_entries
        (start_election (RaftState.init "n1" demoNodes) (fun _ => true))
        ["c0", "c1"]).1)
      (fun _ => true))

end Raft

namespace Fallback

/-- A buffered MQTT message as built by `MQTTFallbackBuffer.add_message`
(`mqtt_fallback.py`): topic, JSON payload (opaque), qos, retry counter.
The creation timestamp is tracked by the containing buffer. -/
structure BufMsg where
  topic : String
  payload : String
  qos : Nat
  retry_count : Nat
deriving DecidableEq, Repr

/-- One row of the `mqtt_messages` SQLite table: autoincrement id, message
fields, `retry_count` (default 0), `sent` flag (default 0) and `created_at`
(modelled as a monotonically increasing counter standing for the ISO
timestamp, so later inserts have strictly larger `created_at`). -/
structure DBRow where
  id : Nat
  topic : String
  payload : String
  qos : Nat
  retry_count : Nat
  sent : Bool
  created_at : Nat
deriving DecidableEq, Repr

/-- The state of one `MQTTFallbackBuffer`: the two bounded in-memory queues
(`queue.Queue(maxsize=buffer_size)`) and the persistent `mqtt_messages`
table, plus the counters generating ids and creation timestamps. -/
structure FallbackBuffer where
  buffer_size : Nat
  memory_buffer : List BufMsg
  persistent_buffer : List BufMsg
  db : List DBRow
  next_id : Nat
  next_time : Nat
deriving DecidableEq, Repr

/-- `MQTTFallbackBuffer.__init__(buffer_size)` with an empty database. -/
def FallbackBuffer.init (buffer_size : Nat) : FallbackBuffer :=
  { buffer_size := buffer_size
    memory_buffer := []
    persistent_buffer := []
    db := []
    next_id := 1
    next_time := 0 }

/-- Python `queue.Queue.full()` / the `queue.Full` condition of `put_nowait`:
a queue with `maxsize > 0` is full when it holds at least `maxsize` items
(`maxsize <= 0` means unbounded, never full). -/
def queue_full (maxsize size : Nat) : Bool :=
  decide (0 < maxsize) && decide (maxsize ≤ size)

/-- `MQTTFallbackBuffer._store_message_persistent`: INSERT the message into
`mqtt_messages` with `retry_count = 0`, `sent = 0` and a fresh
`created_at`. -/
def store_message_persistent (b : FallbackBuffer) (m : BufMsg) : FallbackBuffer :=
  { b with
    db := b.db ++ [⟨b.next_id, m.topic, m.payload, m.qos, 0, false, b.next_time⟩]
    next_id := b.next_id + 1
    next_time := b.next_time + 1 }

/-- `MQTTFallbackBuffer.add_message(topic, payload, qos)`: try
`memory_buffer.put_nowait`; on `queue.Full` try `persistent_buffer.put_nowait`;
on `queue.Full` again, store directly in the database.  Every path returns
`True`. -/
def add_message (b : FallbackBuffer) (topic payload : String) (qos : Nat) :
    FallbackBuffer × Bool :=
  let m : BufMsg := ⟨topic, payload, qos, 0⟩
  if queue_full b.buffer_size b.memory_buffer.length then
    if queue_full b.buffer_size b.persistent_buffer.length then
      (store_message_persistent b m, true)
    else ({ b with persistent_buffer := b.persistent_buffer ++ [m] }, true)
  else ({ b with memory_buffer := b.memory_buffer ++ [m] }, true)

/-- The WHERE clause of the drain query in
`MQTTFallbackBuffer._send_pending_messages`:
`sent = 0 AND retry_count < retry_attempts` with `retry_attempts = 3`. -/
def pending_pred (r : DBRow) : Bool :=
  r.sent = false && r.retry_count < 3

/-- Insertion into a list sorted by `created_at`, the building block of the
query's `ORDER BY created_at ASC`. -/
def insertByCreated (r : DBRow) : List DBRow → List DBRow
  | [] => [r]
  | x :: xs =>
      if r.created_at ≤ x.created_at then r :: x :: xs else x :: insertByCreated r xs

/-- Sort by `created_at` ascending (`ORDER BY created_at ASC`). -/
def sortByCreated : List DBRow → List DBRow
  | [] => []
  | x :: xs => insertByCreated x (sortByCreated xs)

/-- The SELECT of `_send_pending_messages`: unsent rows below the retry cap,
FIFO by creation time, `LIMIT 10`. -/
def pending_batch (db : List DBRow) : List DBRow :=
  (sortByCreated (db.filter pending_pred)).take 10

/-- Processing one fetched message: on publish success `UPDATE ... SET
sent = 1`, on failure `UPDATE ... SET retry_count = retry_count + 1`
(both keyed by the row id). -/
def apply_outcome (publish : Nat → Bool) (db : List DBRow) (r : DBRow) :
    List DBRow :=
  db.map (fun row =>
    if row.id = r.id then
      if publish r.id then { row with sent := true }
      else { row with retry_count := row.retry_count + 1 }
    else row)

/-- `MQTTFallbackBuffer._send_pending_messages`, with the simulated MQTT
publish outcome (`random.random() < 0.95`) as the per-id parameter
`publish`: fetch the pending batch, then apply each delivery outcome. -/
def send_pending (db : List DBRow) (publish : Nat → Bool) : List DBRow :=
  (pending_batch db).foldl (apply_outcome publish) db

/-- A single freshly persisted message, used for the drain-retry run. -/
def soloRow : DBRow :=
  ⟨1, "alerts/system/health", "p", 1, 0, false, 0⟩

/-- The database after `n` drain ticks in which every delivery attempt for
every message fails, starting from a store holding only `soloRow`. -/
def failingDrains (n : Nat) : List DBRow :=
  Nat.iterate (fun db => send_pending db (fun _ => false)) n [soloRow]

/-- A fallback buffer of capacity 1 with both in-memory rings full. -/
def fullBuf : FallbackBuffer :=
  { buffer_size := 1
    memory_buffer := [⟨"t", "p", 1, 0⟩]
    persistent_buffer := [⟨"t", "p", 1, 0⟩]
    db := []
    next_id := 5
    next_time := 7 }

end Fallback

namespace DeviceBuf

/-- A message of the in-memory `MQTTBuffer` of `iot_edge_service.py`
(`{'topic': ..., 'payload': ..., 'timestamp': ..., 'retry_count': 0}`). -/
structure DeviceMsg where
  topic : String
  payload : String
  retry_count : Nat
deriving DecidableEq, Repr

/-- The `MQTTBuffer` state: a `queue.Queue(maxsize=max_size)` (default
1000), with no persistent tier. -/
structure MQTTBuffer where
  max_size : Nat
  buffer : List DeviceMsg
deriving DecidableEq, Repr

/-- `MQTTBuffer.add_message(topic, payload)`: if the queue is full, drop the
oldest message (`get_nowait`), then `put` the new message and return
`True`. -/
def add_message (b : MQTTBuffer) (topic payload : String) : MQTTBuffer × Bool :=
  let m : DeviceMsg := ⟨topic, payload, 0⟩
  if Fallback.queue_full b.max_size b.buffer.length then
    ({ b with buffer := b.buffer.drop 1 ++ [m] }, true)
  else ({ b with buffer := b.buffer ++ [m] }, true)

/-- A device buffer of capacity 2 holding two messages. -/
def fullDevBuf : MQTTBuffer :=
  { max_size := 2
    buffer := [⟨"t1", "p1", 0⟩, ⟨"t2", "p2", 0⟩] }

end DeviceBuf

namespace Detector

/-- Exact value of `np.mean` on a list of floats. -/
noncomputable def npMean (l : List ℝ) : ℝ := l.sum / l.length

/-- Exact value of `np.std` on a list of floats: the population standard
deviation, the square root of the mean squared deviation. -/
noncomputable def npStd (l : List ℝ) : ℝ :=
  Real.sqrt ((l.map (fun x => (x - npMean l) ^ 2)).sum / l.length)

/-- The mutable state of one `EdgeAnomalyDetector`
(`iot_edge_service.py`): sliding window, threshold multiplier, baseline
statistics, and the training flag of its embedded `EdgeMLModel`
(`anomaly_detection` type), which nothing in the detector ever trains. -/
structure DetectorState where
  sensor_type : String
  window_size : Nat
  data_buffer : List ℝ
  threshold_multiplier : ℝ
  baseline_mean : ℝ
  baseline_std : ℝ
  ml_trained : Bool

/-- `EdgeAnomalyDetector.__init__(sensor_type)`: window 50, empty buffer,
threshold multiplier 2.5, baseline mean 0 and std 1, untrained ML model. -/
noncomputable def DetectorState.init (sensor : String) : DetectorState :=
  { sensor_type := sensor
    window_size := 50
    data_buffer := []
    threshold_multiplier := 2.5
    baseline_mean := 0
    baseline_std := 1
    ml_trained := false }

/-- The buffer after `update_baseline` appends the new value and pops the
oldest element when the window size is exceeded. -/
noncomputable def trimmedBuffer (s : DetectorState) (v : ℝ) : List ℝ :=
  if s.window_size < (s.data_buffer ++ [v]).length then (s.data_buffer ++ [v]).drop 1
  else s.data_buffer ++ [v]

/-- `EdgeAnomalyDetector.update_baseline(new_data)`: append (bounded by the
window), and once at least 10 samples exist recompute `baseline_mean` and
`baseline_std` with `np.mean`/`np.std`. -/
noncomputable def update_baseline (s : DetectorState) (v : ℝ) : DetectorState :=
  if 10 ≤ (trimmedBuffer s v).length then
    { s with
      data_buffer := trimmedBuffer s v
      baseline_mean := npMean (trimmedBuffer s v)
      baseline_std := npStd (trimmedBuffer s v) }
  else { s with data_buffer := trimmedBuffer s v }

/-- The anomaly list produced by `EdgeMLModel.predict` inside
`detect_anomaly`: an untrained model returns an error dictionary (so no
`anomalies` key, read back as the empty list); a trained model runs
`_anomaly_detection_inference` on the singleton `{sensor_type: value}`, whose
mean is the value itself and whose std is 0, flagging the value only when
`abs(value - mean) > 2 * std`. -/
noncomputable def ml_predict_anomalies (is_trained : Bool) (v : ℝ) : List ℝ :=
  if is_trained then
    if 2 * npStd [v] < |v - npMean [v]| then [v] else []
  else []

/-- The z-score computed by `detect_anomaly`:
`abs((value - baseline_mean) / baseline_std) if baseline_std > 0 else 0`. -/
noncomputable def zScoreOf (s : DetectorState) (v : ℝ) : ℝ :=
  if 0 < s.baseline_std then |(v - s.baseline_mean) / s.baseline_std| else 0

/-- The severity classification of `detect_anomaly` against the threshold
multiplier: `critical` above `2·tm`, `high` above `1.5·tm`, `medium` above
`tm`, else `low`. -/
noncomputable def severityOf (tm z : ℝ) : String :=
  if tm * 2 < z then "critical"
  else if tm * 1.5 < z then "high"
  else if tm < z then "medium"
  else "low"

/-- The dictionary returned by `detect_anomaly`, restricted to the fields the
specification talks about.  The warm-up return carries no `z_score` key,
hence the `Option`. -/
structure AnomalyResult where
  is_anomaly : Bool
  confidence : ℝ
  severity : String
  z_score : Option ℝ

/-- `EdgeAnomalyDetector.detect_anomaly(value)` (the spec's `observe`): with
fewer than 10 buffered samples, update the baseline and return the warm-up
result `{'is_anomaly': False, 'confidence': 0.0, 'severity': 'low'}`;
otherwise compute the z-score against the current baseline, combine with
the ML model's anomaly list, classify, update the baseline, and return the
result. -/
noncomputable def detect_anomaly (s : DetectorState) (v : ℝ) :
    AnomalyResult × DetectorState :=
  if s.data_buffer.length < 10 then
    ({ is_anomaly := false, confidence := 0, severity := "low", z_score := none },
      update_baseline s v)
  else
    ({ is_anomaly := decide (s.threshold_multiplier < zScoreOf s v ∨
          0 < (ml_predict_anomalies s.ml_trained v).length)
       confidence := min (zScoreOf s v / s.threshold_multiplier) 1
       severity := severityOf s.threshold_multiplier (zScoreOf s v)
       z_score := some (zScoreOf s v) },
      update_baseline s v)

/-- Feeding a sequence of readings through `detect_anomaly`, keeping only the
state (each call both classifies and updates the baseline). -/
noncomputable def observe_list (s : DetectorState) (vs : List ℝ) : DetectorState :=
  vs.foldl (fun st v => (detect_anomaly st v).2) s

/-- Nine warm-up readings with sample mean 22 and sample standard deviation
`sqrt(8/9) ≈ 0.94` (the claim's "about 22" / "about 1"). -/
noncomputable def c5_warm : List ℝ := [21, 21, 21, 21, 22, 23, 23, 23, 23]

/-- Ten warm-up readings with sample mean 22 and sample standard deviation
exactly 1. -/
noncomputable def c5_full : List ℝ := [21, 21, 21, 21, 21, 23, 23, 23, 23, 23]

/-- Ten constant readings (mean 22, standard deviation 0). -/
noncomputable def c6_const : List ℝ := [22, 22, 22, 22, 22, 22, 22, 22, 22, 22]

/-- A detector state with a ten-sample window, baseline mean 22 and baseline
std 1, used to instantiate the classification theorem. -/
noncomputable def readyDetector : DetectorState :=
  { sensor_type := "temperature"
    window_size := 50
    data_buffer := c6_const
    threshold_multiplier := 2.5
    baseline_mean := 22
    baseline_std := 1
    ml_trained := false }

end Detector

namespace Orchestrator

/-- An `IoTDevice` as seen by `trigger_emergency_coordination`: its id and
its optional `RaftConsensus` participant. -/
structure Device where
  device_id : String
  consensus : Option Raft.RaftState
deriving DecidableEq, Repr

/-- A `DeviceCluster`: id, location and member device ids. -/
structure Cluster where
  cluster_id : String
  location : String
  devices : List String
deriving DecidableEq, Repr

/-- An emergency event as built by
`EdgeComputingOrchestrator.trigger_emergency_coordination`: the id is the
sequence number behind `EMG-{len+1:03d}`; details and timestamp are opaque
and omitted. -/
structure EmergencyEvent where
  id : Nat
  cluster_id : String
  etype : String
  status : String
  devices_affected : List String
deriving DecidableEq, Repr

/-- The `EdgeComputingOrchestrator` state: the device and cluster
dictionaries and the emergency event list. -/
structure OrchestratorState where
  devices : List (String × Device)
  clusters : List (String × Cluster)
  emergency_events : List EmergencyEvent
deriving DecidableEq, Repr

/-- The per-device body of the notification loop: a device with a consensus
participant appends the `emergency_coordination` command via
`append_entries` (which only a leader accepts); a device without one is left
alone. -/
def notify_device (d : Device) : Device :=
  { d with
    consensus := d.consensus.map
      (fun c => (Raft.append_entries c ["emergency_coordination"]).1) }

/-- In-place update of one dictionary entry (`self.devices.get(device_id)`
followed by mutation of the found object). -/
def mapAssoc {β : Type} (l : List (String × β)) (k : String) (f : β → β) :
    List (String × β) :=
  l.map (fun p => if p.1 = k then (p.1, f p.2) else p)

/-- `EdgeComputingOrchestrator.trigger_emergency_coordination(cluster_id,
emergency_type, details)`: an unknown cluster returns
`{'error': 'Cluster not found'}` with no state change; otherwise one
EmergencyEvent (status `active`, affected devices = the cluster members) is
appended and every member device with a consensus participant gets the
`emergency_coordination` command offered to its `append_entries`. -/
def trigger_emergency_coordination (o : OrchestratorState)
    (cluster_id etype : String) : OrchestratorState × Except String EmergencyEvent :=
  match lookupAssoc o.clusters cluster_id with
  | none => (o, Except.error "Cluster not found")
  | some cluster =>
      ({ o with
          emergency_events := o.emergency_events ++
            [⟨o.emergency_events.length + 1, cluster_id, etype, "active",
              cluster.devices⟩]
          devices := cluster.devices.foldl
            (fun ds did => mapAssoc ds did notify_device) o.devices },
        Except.ok ⟨o.emergency_events.length + 1, cluster_id, etype, "active",
          cluster.devices⟩)

/-- Number of log entries of type `emergency_coordination` across the given
devices' consensus participants. -/
def coordCount (o : OrchestratorState) (ds : List String) : Nat :=
  (ds.map (fun did =>
    match lookupAssoc o.devices did with
    | some d =>
        match d.consensus with
        | some c => (c.log.filter (fun e => e.command = "emergency_coordination")).length
        | none => 0
    | none => 0)).sum

/-- Number of committed (index at most `commit_index`) log entries of type
`emergency_coordination` across the given devices' consensus participants. -/
def committedCoordCount (o : OrchestratorState) (ds : List String) : Nat :=
  (ds.map (fun did =>
    match lookupAssoc o.devices did with
    | some d =>
        match d.consensus with
        | some c => (c.log.filter (fun e =>
            decide (e.index ≤ c.commit_index) && e.command = "emergency_coordination")).length
        | none => 0
    | none => 0)).sum

/-- A cluster of three devices in which `n1` is the leader holding two
committed entries (`demoCommittedState`) and `n2`, `n3` are fresh
followers. -/
def demoOrch : OrchestratorState :=
  { devices :=
      [("n1", ⟨"n1", some Raft.demoCommittedState⟩),
       ("n2", ⟨"n2", some (Raft.RaftState.init "n2" Raft.demoNodes)⟩),
       ("n3", ⟨"n3", some (Raft.RaftState.init "n3" Raft.demoNodes)⟩)]
    clusters := [("c1", ⟨"c1", "zone-a", ["n1", "n2", "n3"]⟩)]
    emergency_events := [] }

end Orchestrator

end SmartRetail360

namespace SmartRetail360

namespace Raft

/-- C1.  In the three-member group `demoNodes`, participants `n1` and `n2`
each run `start_election` from the initial follower state with every simulated
`request_vote` granted (the code's `random.random() > 0.3` draws all
succeeding, which reachable with probability 0.49 per round).  Both end in
state `leader` with `current_term = 1`: two leaders hold the same term in the
same group, because `request_vote` consults no peer state (no per-term
votedFor check), so majority-vote exclusivity is not enforced. -/
theorem two_leaders_same_term :
    (start_election (RaftState.init "n1" demoNodes) (fun _ => true)).state
      = NodeState.leader ∧
    (start_election (RaftState.init "n2" demoNodes) (fun _ => true)).state
      = NodeState.leader ∧
    (start_election (RaftState.init "n1" demoNodes) (fun _ => true)).current_term
      = 1 ∧
    (start_election (RaftState.init "n2" demoNodes) (fun _ => true)).current_term
      = 1 := by
  refine ⟨rfl, rfl, rfl, rfl⟩

/-- C2.  In `demoCommittedState` the log holds entries with indices 0 and 1
and `commit_index = 1`, so both entries are committed (index ≤ commitIndex);
yet `apply_committed_entries` executes only the entry at index 1: the loop
increments `last_applied` before subscripting `self.log[self.last_applied]`,
so the entry at index 0 (`c0`) is never handed to `execute_command`. -/
theorem apply_skips_first_committed_entry :
    demoCommittedState.commit_index = 1 ∧
    demoCommittedState.log.map LogEntry.command = ["c0", "c1"] ∧
    demoCommittedState.log.map LogEntry.index = [0, 1] ∧
    (apply_committed_entries demoCommittedState).2.map LogEntry.command = ["c1"] ∧
    (apply_committed_entries demoCommittedState).1.last_applied = 1 := by
  refine ⟨rfl, rfl, rfl, rfl, rfl⟩

lemma mem_setAssoc {β : Type} {l : List (String × β)} {k : String} {v : β}
    {p : String × β} (h : p ∈ SmartRetail360.setAssoc l k v) :
    p.2 = v ∨ p ∈ l := by
  induction l with
  | nil =>
    simp [SmartRetail360.setAssoc] at h
    exact Or.inl (by rw [h])
  | cons q rest ih =>
    obtain ⟨a, b⟩ := q
    by_cases hk : a = k
    · rw [SmartRetail360.setAssoc, if_pos hk] at h
      rcases List.mem_cons.mp h with h0 | h0
      · exact Or.inl (by rw [h0])
      · exact Or.inr (List.mem_cons_of_mem _ h0)
    · rw [SmartRetail360.setAssoc, if_neg hk] at h
      rcases List.mem_cons.mp h with h0 | h0
      · exact Or.inr (by rw [h0]; exact List.mem_cons_self _ _)
      · rcases ih h0 with h1 | h1
        · exact Or.inl h1
        · exact Or.inr (List.mem_cons_of_mem _ h1)

lemma pairs_pred_foldl {β : Type} (P : String × β → Prop)
    (step : List (String × β) → String → List (String × β))
    (hstep : ∀ d n, (∀ p ∈ d, P p) → ∀ p ∈ step d n, P p) :
    ∀ (ns : List String) (l : List (String × β)),
      (∀ p ∈ l, P p) → ∀ p ∈ ns.foldl step l, P p := by
  intro ns
  induction ns with
  | nil => intro l hl; simpa using hl
  | cons n rest ih =>
    intro l hl
    simpa using ih (step l n) (hstep l n hl)

lemma insertSorted_perm (x : Int) (l : List Int) :
    List.Perm (insertSorted x l) (x :: l) := by
  induction l with
  | nil => exact List.Perm.refl _
  | cons y ys ih =>
    by_cases h : x ≤ y
    · rw [insertSorted, if_pos h]
    · rw [insertSorted, if_neg h]
      exact List.Perm.trans (List.Perm.cons y ih) (List.Perm.swap x y ys)

lemma sortInts_perm (l : List Int) : List.Perm (sortInts l) l := by
  induction l with
  | nil => exact List.Perm.refl _
  | cons x xs ih =>
    exact List.Perm.trans (insertSorted_perm x (sortInts xs)) (List.Perm.cons x ih)

lemma mem_of_mem_sortInts {v : Int} {l : List Int} (h : v ∈ sortInts l) : v ∈ l :=
  (sortInts_perm l).mem_iff.mp h

lemma append_entries_fst (s : RaftState) (es : List String) :
    (append_entries s es).1 =
      if s.state = NodeState.leader then appendFold s es else s := by
  rw [append_entries]
  split <;> rfl

lemma appendFold_spec (entries : List String) (s : RaftState) :
    (appendFold s entries).last_applied = s.last_applied ∧
    (appendFold s entries).commit_index = s.commit_index ∧
    (appendFold s entries).match_index = s.match_index ∧
    s.log.length ≤ (appendFold s entries).log.length := by
  induction entries generalizing s with
  | nil => exact ⟨rfl, rfl, rfl, le_refl _⟩
  | cons e rest ih =>
    have h := ih { s with log := s.log ++ [⟨s.current_term, s.log.length, e⟩] }
    simp only [appendFold, List.foldl_cons] at h ⊢
    refine ⟨h.1, h.2.1, h.2.2.1, ?_⟩
    refine le_trans ?_ h.2.2.2
    simp

lemma applyLoop_spec (fuel : Nat) (s : RaftState) (acc : List LogEntry) :
    (applyLoop fuel s acc).1.log = s.log ∧
    (applyLoop fuel s acc).1.commit_index = s.commit_index ∧
    (applyLoop fuel s acc).1.match_index = s.match_index ∧
    s.last_applied ≤ (applyLoop fuel s acc).1.last_applied ∧
    (applyLoop fuel s acc).1.last_applied ≤ max s.last_applied s.commit_index := by
  induction fuel generalizing s acc with
  | zero => exact ⟨rfl, rfl, rfl, le_refl _, le_max_left _ _⟩
  | succ n ih =>
    by_cases h : s.last_applied < s.commit_index
    · have hrec := ih { s with last_applied := s.last_applied + 1 }
        (match s.log.get? (s.last_applied + 1) with
          | some e => acc ++ [e]
          | none => acc)
      rw [applyLoop, if_pos h]
      refine ⟨hrec.1, hrec.2.1, hrec.2.2.1, ?_, ?_⟩
      · exact le_trans (Nat.le_succ _) hrec.2.2.2.1
      · have h5 := hrec.2.2.2.2
        simp only at h5
        omega
    · rw [applyLoop, if_neg h]
      exact ⟨rfl, rfl, rfl, le_refl _, le_max_left _ _⟩

lemma IndexInv_init (node : String) (nodes : List String) :
    IndexInv (RaftState.init node nodes) := by
  refine ⟨Nat.le_refl 0, Nat.le_refl 0, ?_⟩
  intro p hp
  simp [RaftState.init] at hp

lemma IndexInv_stepOp (s : RaftState) (op : RaftOp) (h : IndexInv s) :
    IndexInv (stepOp s op) := by
  obtain ⟨hla, hci, hmo⟩ := h
  cases op with
  | election g =>
    rw [stepOp, start_election]
    split
    · refine ⟨hla, hci, ?_⟩
      intro p hp
      refine pairs_pred_foldl (fun q => q.2 ≤ 0 ∨ q.2 < (s.log.length : Int))
        (fun d n => SmartRetail360.setAssoc d n (0 : Int)) ?_
        s.nodes s.match_index (fun q hq => hmo q hq) p hp
      intro d n hd q hq
      rcases mem_setAssoc hq with h0 | h0
      · exact Or.inl (le_of_eq h0)
      · exact hd q h0
    · exact ⟨hla, hci, fun p hp => hmo p hp⟩
  | append es =>
    rw [stepOp, append_entries_fst]
    split
    · obtain ⟨h1, h2, h3, h4⟩ := appendFold_spec es s
      refine ⟨by omega, by omega, ?_⟩
      intro p hp
      rw [h3] at hp
      rcases hmo p hp with h5 | h5
      · exact Or.inl h5
      · exact Or.inr (lt_of_lt_of_le h5 (by exact_mod_cast h4))
    · exact ⟨hla, hci, hmo⟩
  | replicate f =>
    rw [stepOp, replicate_log]
    split
    · refine ⟨hla, hci, ?_⟩
      intro p hp
      refine pairs_pred_foldl (fun q => q.2 ≤ 0 ∨ q.2 < (s.log.length : Int))
        (fun d n =>
          if n != s.node_id && f n then
            SmartRetail360.setAssoc d n ((s.log.length : Int) - 1)
          else d) ?_
        s.nodes s.match_index (fun q hq => hmo q hq) p hp
      intro d n hd q hq
      simp only [] at hq
      split at hq
      · rcases mem_setAssoc hq with h0 | h0
        · omega
        · exact hd q h0
      · exact hd q hq
    · exact ⟨hla, hci, hmo⟩
  | updateCommit =>
    rw [stepOp, update_commit_index]
    split
    · split
      · exact ⟨hla, hci, hmo⟩
      · rename_i majority hget
        split
        · rename_i hlt
          have hmemv : majority ∈ s.match_index.map Prod.snd :=
            mem_of_mem_sortInts (List.get?_mem hget)
          obtain ⟨p, hpmem, hpv⟩ := List.mem_map.mp hmemv
          have hmaj := hmo p hpmem
          rw [hpv] at hmaj
          have hlen : majority < (s.log.length : Int) := by
            rcases hmaj with h0 | h0
            · omega
            · exact h0
          exact ⟨by simp only; omega, by simp only; omega, fun p hp => hmo p hp⟩
        · exact ⟨hla, hci, hmo⟩
    · exact ⟨hla, hci, hmo⟩
  | applyEntries =>
    rw [stepOp, apply_committed_entries]
    obtain ⟨h1, h2, h3, h4, h5⟩ :=
      applyLoop_spec (s.commit_index - s.last_applied) s []
    refine ⟨?_, ?_, ?_⟩
    · rw [h2]; omega
    · rw [h1, h2]; exact hci
    · intro p hp
      rw [h3] at hp
      rcases hmo p hp with h6 | h6
      · exact Or.inl h6
      · exact Or.inr (by rw [h1]; exact h6)
  | heartbeat l t =>
    rw [stepOp, receive_heartbeat]
    split
    · exact ⟨hla, hci, fun p hp => hmo p hp⟩
    · exact ⟨hla, hci, hmo⟩

lemma stepOp_mono (s : RaftState) (op : RaftOp) :
    s.last_applied ≤ (stepOp s op).last_applied ∧
    s.commit_index ≤ (stepOp s op).commit_index := by
  cases op with
  | election g =>
    rw [stepOp, start_election]
    split
    · exact ⟨le_refl _, le_refl _⟩
    · exact ⟨le_refl _, le_refl _⟩
  | append es =>
    rw [stepOp, append_entries_fst]
    split
    · obtain ⟨h1, h2, _, _⟩ := appendFold_spec es s
      exact ⟨le_of_eq h1.symm, le_of_eq h2.symm⟩
    · exact ⟨le_refl _, le_refl _⟩
  | replicate f =>
    rw [stepOp, replicate_log]
    split
    · exact ⟨le_refl _, le_refl _⟩
    · exact ⟨le_refl _, le_refl _⟩
  | updateCommit =>
    rw [stepOp, update_commit_index]
    split
    · split
      · exact ⟨le_refl _, le_refl _⟩
      · split
        · rename_i majority hget hlt
          exact ⟨le_refl _, by simp only; omega⟩
        · exact ⟨le_refl _, le_refl _⟩
    · exact ⟨le_refl _, le_refl _⟩
  | applyEntries =>
    rw [stepOp, apply_committed_entries]
    obtain ⟨_, h2, _, h4, _⟩ := applyLoop_spec (s.commit_index - s.last_applied) s []
    exact ⟨h4, le_of_eq h2.symm⟩
  | heartbeat l t =>
    rw [stepOp, receive_heartbeat]
    split
    · exact ⟨le_refl _, le_refl _⟩
    · exact ⟨le_refl _, le_refl _⟩

lemma IndexInv_foldl (ops : List RaftOp) (s : RaftState) (h : IndexInv s) :
    IndexInv (ops.foldl stepOp s) := by
  induction ops generalizing s with
  | nil => simpa using h
  | cons op rest ih => simpa using ih (stepOp s op) (IndexInv_stepOp s op h)

lemma lookupAssoc_setAssoc_self {β : Type} (l : List (String × β)) (k : String) (v : β) :
    SmartRetail360.lookupAssoc (SmartRetail360.setAssoc l k v) k = some v := by
  induction l with
  | nil => simp [SmartRetail360.setAssoc, SmartRetail360.lookupAssoc]
  | cons q rest ih =>
    obtain ⟨a, b⟩ := q
    by_cases hk : a = k
    · rw [SmartRetail360.setAssoc, if_pos hk, SmartRetail360.lookupAssoc, if_pos rfl]
    · rw [SmartRetail360.setAssoc, if_neg hk, SmartRetail360.lookupAssoc, if_neg hk]
      exact ih

lemma lookupAssoc_setAssoc_ne {β : Type} (l : List (String × β)) {k key : String}
    (v : β) (h : k ≠ key) :
    SmartRetail360.lookupAssoc (SmartRetail360.setAssoc l key v) k =
      SmartRetail360.lookupAssoc l k := by
  induction l with
  | nil =>
    simp [SmartRetail360.setAssoc, SmartRetail360.lookupAssoc, Ne.symm h]
  | cons q rest ih =>
    obtain ⟨a, b⟩ := q
    by_cases hk : a = key
    · rw [SmartRetail360.setAssoc, if_pos hk, SmartRetail360.lookupAssoc,
        if_neg (Ne.symm h), SmartRetail360.lookupAssoc]
      rw [hk]
      rw [if_neg (Ne.symm h)]
    · rw [SmartRetail360.setAssoc, if_neg hk, SmartRetail360.lookupAssoc,
        SmartRetail360.lookupAssoc]
      by_cases ha : a = k
      · rw [if_pos ha, if_pos ha]
      · rw [if_neg ha, if_neg ha]
        exact ih

lemma lookupAssoc_foldl_setAssoc_not_mem {β : Type} (f : String → β)
    (ns : List String) (l : List (String × β)) (k : String) (hk : k ∉ ns) :
    SmartRetail360.lookupAssoc
        (ns.foldl (fun d n => SmartRetail360.setAssoc d n (f n)) l) k =
      SmartRetail360.lookupAssoc l k := by
  induction ns generalizing l with
  | nil => rfl
  | cons n rest ih =>
    have hkn : k ≠ n := fun h => hk (h ▸ List.mem_cons_self n rest)
    have hkr : k ∉ rest := fun h => hk (List.mem_cons_of_mem n h)
    rw [List.foldl_cons, ih (SmartRetail360.setAssoc l n (f n)) hkr,
      lookupAssoc_setAssoc_ne l (f n) hkn]

lemma lookupAssoc_foldl_setAssoc_mem {β : Type} (f : String → β)
    (ns : List String) (l : List (String × β)) (k : String) (hk : k ∈ ns) :
    SmartRetail360.lookupAssoc
        (ns.foldl (fun d n => SmartRetail360.setAssoc d n (f n)) l) k =
      some (f k) := by
  induction ns generalizing l with
  | nil => cases hk
  | cons n rest ih =>
    rw [List.foldl_cons]
    by_cases hr : k ∈ rest
    · exact ih (SmartRetail360.setAssoc l n (f n)) hr
    · have hkn : k = n := by
        rcases List.mem_cons.mp hk with h | h
        · exact h
        · exact absurd h hr
      rw [lookupAssoc_foldl_setAssoc_not_mem f rest _ k hr, hkn,
        lookupAssoc_setAssoc_self]

/-- C4.  `start_election` increments `currentTerm` by exactly one, records the
self-vote in `votedFor`, and ends in state `leader` exactly when the votes
received (the self-vote plus one per granting peer) strictly exceed half the
group size; otherwise it ends in state `follower` (never `candidate`).  On
becoming leader, `nextIndex[peer] = len(log)` and `matchIndex[peer] = 0` are
set for every group member. -/
theorem election_transition (s : RaftState) (grant : String → Bool) :
    (start_election s grant).current_term = s.current_term + 1 ∧
    (start_election s grant).voted_for = some s.node_id ∧
    ((start_election s grant).state = NodeState.leader ↔
      s.nodes.length < 2 * votes_received s grant) ∧
    ((start_election s grant).state = NodeState.leader ∨
      (start_election s grant).state = NodeState.follower) ∧
    ((start_election s grant).state = NodeState.leader →
      ∀ n ∈ s.nodes,
        SmartRetail360.lookupAssoc (start_election s grant).next_index n =
          some s.log.length ∧
        SmartRetail360.lookupAssoc (start_election s grant).match_index n =
          some 0) := by
  have hv : votes_received
      { s with current_term := s.current_term + 1, state := NodeState.candidate,
               voted_for := some s.node_id, leader_id := none } grant =
      votes_received s grant := rfl
  rw [start_election]
  simp only [hv]
  split
  · rename_i hcond
    refine ⟨rfl, rfl, ?_, Or.inl rfl, ?_⟩
    · exact ⟨fun _ => by simpa using hcond, fun _ => rfl⟩
    · intro _ n hn
      constructor
      · exact lookupAssoc_foldl_setAssoc_mem (fun _ => s.log.length) s.nodes _ n hn
      · exact lookupAssoc_foldl_setAssoc_mem (fun _ => (0 : Int)) s.nodes _ n hn
  · rename_i hcond
    refine ⟨rfl, rfl, ?_, Or.inr rfl, ?_⟩
    · constructor
      · intro h
        cases h
      · intro h
        exact absurd (by simpa using h) hcond
    · intro h
      cases h

/-- Witness for `election_transition`: in the concrete three-member group,
`n1` with every vote granted ends as leader with term 1, votedFor n1, and
`nextIndex["n3"] = 0` (the empty log's length) and `matchIndex["n3"] = 0`. -/
theorem election_transition_witness :
    (start_election (RaftState.init "n1" demoNodes) (fun _ => true)).current_term = 1 ∧
    (start_election (RaftState.init "n1" demoNodes) (fun _ => true)).voted_for = some "n1" ∧
    (start_election (RaftState.init "n1" demoNodes) (fun _ => true)).state = NodeState.leader ∧
    SmartRetail360.lookupAssoc
      (start_election (RaftState.init "n1" demoNodes) (fun _ => true)).next_index "n3" =
      some 0 ∧
    SmartRetail360.lookupAssoc
      (start_election (RaftState.init "n1" demoNodes) (fun _ => true)).match_index "n3" =
      some 0 := by
  have h := election_transition (RaftState.init "n1" demoNodes) (fun _ => true)
  have hlead : (start_election (RaftState.init "n1" demoNodes) (fun _ => true)).state =
      NodeState.leader := h.2.2.1.mpr (by decide)
  have hmem : "n3" ∈ (RaftState.init "n1" demoNodes).nodes := by decide
  exact ⟨h.1, h.2.1, hlead, (h.2.2.2.2 hlead "n3" hmem).1, (h.2.2.2.2 hlead "n3" hmem).2⟩

/-- C3.  From the initial follower state, after any finite sequence of calls
to `start_election`, `append_entries`, `replicate_log`, `update_commit_index`,
`apply_committed_entries` and `receive_heartbeat` (with arbitrary simulated
vote/replication outcomes), the invariant
`lastApplied ≤ commitIndex ≤ len(log)` holds, and one further call of any
kind never decreases `lastApplied` or `commitIndex`.  Quantifying over every
operation list gives the invariant after each call of every sequence. -/
theorem consensus_index_invariant (node : String) (nodes : List String)
    (ops : List RaftOp) (op : RaftOp) :
    (runOps node nodes ops).last_applied ≤ (runOps node nodes ops).commit_index ∧
    (runOps node nodes ops).commit_index ≤ (runOps node nodes ops).log.length ∧
    (runOps node nodes ops).last_applied ≤ (runOps node nodes (ops ++ [op])).last_applied ∧
    (runOps node nodes ops).commit_index ≤ (runOps node nodes (ops ++ [op])).commit_index := by
  have hinv := IndexInv_foldl ops (RaftState.init node nodes) (IndexInv_init node nodes)
  have hstep : runOps node nodes (ops ++ [op]) = stepOp (runOps node nodes ops) op := by
    simp [runOps, List.foldl_append]
  obtain ⟨hm1, hm2⟩ := stepOp_mono (runOps node nodes ops) op
  exact ⟨hinv.1, hinv.2.1, by rw [hstep]; exact hm1, by rw [hstep]; exact hm2⟩

end Raft

end SmartRetail360

namespace SmartRetail360

namespace Fallback

lemma mem_insertByCreated {r b : DBRow} {l : List DBRow}
    (h : b ∈ insertByCreated r l) : b = r ∨ b ∈ l := by
  induction l with
  | nil =>
    rw [insertByCreated] at h
    exact Or.inl (List.mem_singleton.mp h)
  | cons x xs ih =>
    rw [insertByCreated] at h
    split at h
    · rcases List.mem_cons.mp h with h0 | h0
      · exact Or.inl h0
      · exact Or.inr h0
    · rcases List.mem_cons.mp h with h0 | h0
      · exact Or.inr (h0 ▸ List.mem_cons_self x xs)
      · rcases ih h0 with h1 | h1
        · exact Or.inl h1
        · exact Or.inr (List.mem_cons_of_mem x h1)

lemma mem_sortByCreated {r : DBRow} {l : List DBRow}
    (h : r ∈ sortByCreated l) : r ∈ l := by
  induction l with
  | nil => cases h
  | cons x xs ih =>
    rw [sortByCreated] at h
    rcases mem_insertByCreated h with h0 | h0
    · exact h0 ▸ List.mem_cons_self x xs
    · exact List.mem_cons_of_mem x (ih h0)

lemma pairwise_insertByCreated (r : DBRow) (l : List DBRow)
    (h : List.Pairwise (fun a b => a.created_at ≤ b.created_at) l) :
    List.Pairwise (fun a b => a.created_at ≤ b.created_at) (insertByCreated r l) := by
  induction l with
  | nil =>
    rw [insertByCreated]
    exact List.pairwise_singleton _ _
  | cons x xs ih =>
    rw [insertByCreated]
    rcases List.pairwise_cons.mp h with ⟨hx, hxs⟩
    split
    · rename_i hle
      refine List.pairwise_cons.mpr ⟨?_, h⟩
      intro b hb
      rcases List.mem_cons.mp hb with h0 | h0
      · exact h0 ▸ hle
      · exact le_trans hle (hx b h0)
    · rename_i hgt
      refine List.pairwise_cons.mpr ⟨?_, ih hxs⟩
      intro b hb
      rcases mem_insertByCreated hb with h0 | h0
      · rw [h0]; omega
      · exact hx b h0

lemma pairwise_sortByCreated (l : List DBRow) :
    List.Pairwise (fun a b => a.created_at ≤ b.created_at) (sortByCreated l) := by
  induction l with
  | nil => exact List.Pairwise.nil
  | cons x xs ih => exact pairwise_insertByCreated x (sortByCreated xs) ih

lemma failingDrains_succ (n : Nat) :
    failingDrains (n + 1) = send_pending (failingDrains n) (fun _ => false) := by
  rw [failingDrains, failingDrains, Function.iterate_succ_apply']

lemma send_pending_solo (k : Nat) (hk : k ≤ 3) :
    send_pending [⟨1, "alerts/system/health", "p", 1, k, false, 0⟩] (fun _ => false) =
      [⟨1, "alerts/system/health", "p", 1, min (k + 1) 3, false, 0⟩] := by
  interval_cases k <;> decide

lemma failingDrains_closed (n : Nat) :
    failingDrains n = [⟨1, "alerts/system/health", "p", 1, min n 3, false, 0⟩] := by
  induction n with
  | zero => decide
  | succ m ih =>
    rw [failingDrains_succ, ih, send_pending_solo (min m 3) (min_le_right m 3)]
    have h3 : min (min m 3 + 1) 3 = min (m + 1) 3 := by omega
    rw [h3]

/-- C8.  The drain of the persistent store selects only rows with `sent = 0`
and `retryCount < 3`, at most 10 per tick, ordered FIFO by creation time;
and a message whose delivery always fails has its retryCount incremented once
per tick until it reaches 3 (`min n 3` after `n` ticks, so exactly 3 failed
attempts), after which it is never again part of any drain batch. -/
theorem retry_cap_exclusion (db : List DBRow) (n : Nat) :
    (∀ r ∈ pending_batch db, r.sent = false ∧ r.retry_count < 3) ∧
    (pending_batch db).length ≤ 10 ∧
    List.Pairwise (fun a b => a.created_at ≤ b.created_at) (pending_batch db) ∧
    (failingDrains n).map DBRow.retry_count = [min n 3] ∧
    (pending_batch (failingDrains n) = [] ↔ 3 ≤ n) := by
  refine ⟨?_, ?_, ?_, ?_, ?_⟩
  · intro r hr
    have h1 : r ∈ sortByCreated (db.filter pending_pred) :=
      List.take_subset 10 _ hr
    have h2 : r ∈ db.filter pending_pred := mem_sortByCreated h1
    have h3 : pending_pred r = true := List.of_mem_filter h2
    rw [pending_pred, Bool.and_eq_true, decide_eq_true_eq, decide_eq_true_eq] at h3
    exact h3
  · rw [pending_batch, List.length_take]
    exact min_le_left _ _
  · exact (pairwise_sortByCreated _).sublist (List.take_sublist _ _)
  · rw [failingDrains_closed]
    rfl
  · rw [failingDrains_closed]
    constructor
    · intro h
      by_contra hn
      have hn3 : n < 3 := by omega
      interval_cases n
      · exact absurd h (by decide)
      · exact absurd h (by decide)
      · exact absurd h (by decide)
    · intro h
      have hmin : min n 3 = 3 := by omega
      rw [hmin]
      decide

/-- Witness for `retry_cap_exclusion`: with the store holding only `soloRow`
and every delivery failing, after 5 drain ticks the retry count is 3 and the
pending batch is empty (the membership and `3 ≤ 5` hypotheses are discharged
by computation). -/
theorem retry_cap_exclusion_witness :
    soloRow.sent = false ∧ soloRow.retry_count < 3 ∧
    (failingDrains 5).map DBRow.retry_count = [3] ∧
    pending_batch (failingDrains 5) = [] := by
  have h := retry_cap_exclusion [soloRow] 5
  have h1 := h.1 soloRow (by decide)
  exact ⟨h1.1, h1.2, h.2.2.2.1, h.2.2.2.2.mpr (by decide)⟩

/-- C7.  `MQTTFallbackBuffer.add_message` returns `True` in every buffer
state: the message lands in the memory buffer when it has room, else in the
overflow (persistent) buffer when that has room, else directly in the
database — no path raises, so any number of enqueues (e.g. 1,100 against
capacity 1,000) succeeds. -/
theorem add_message_total (b : FallbackBuffer) (topic payload : String) (qos : Nat) :
    (add_message b topic payload qos).2 = true ∧
    (queue_full b.buffer_size b.memory_buffer.length = false →
      (add_message b topic payload qos).1.memory_buffer =
        b.memory_buffer ++ [⟨topic, payload, qos, 0⟩]) ∧
    (queue_full b.buffer_size b.memory_buffer.length = true →
      queue_full b.buffer_size b.persistent_buffer.length = false →
      (add_message b topic payload qos).1.persistent_buffer =
        b.persistent_buffer ++ [⟨topic, payload, qos, 0⟩]) ∧
    (queue_full b.buffer_size b.memory_buffer.length = true →
      queue_full b.buffer_size b.persistent_buffer.length = true →
      (add_message b topic payload qos).1.db =
        b.db ++ [⟨b.next_id, topic, payload, qos, 0, false, b.next_time⟩]) := by
  rw [add_message]
  by_cases hm : queue_full b.buffer_size b.memory_buffer.length = true
  · by_cases hp : queue_full b.buffer_size b.persistent_buffer.length = true
    · rw [if_pos hm, if_pos hp]
      refine ⟨rfl, ?_, ?_, ?_⟩
      · intro h; rw [hm] at h; cases h
      · intro _ h; rw [hp] at h; cases h
      · intro _ _; rfl
    · rw [if_pos hm, if_neg hp]
      refine ⟨rfl, ?_, ?_, ?_⟩
      · intro h; rw [hm] at h; cases h
      · intro _ _; rfl
      · intro _ h; exact absurd h hp
  · rw [if_neg hm]
    refine ⟨rfl, ?_, ?_, ?_⟩
    · intro _; rfl
    · intro h; exact absurd h hm
    · intro h; exact absurd h hm

/-- Witness for `add_message_total`: with both rings of `fullBuf` full, the
enqueue still returns `True` and the message is written to the database. -/
theorem add_message_total_witness :
    (add_message fullBuf "a" "b" 2).2 = true ∧
    (add_message fullBuf "a" "b" 2).1.db = [⟨5, "a", "b", 2, 0, false, 7⟩] := by
  have h := add_message_total fullBuf "a" "b" 2
  exact ⟨h.1, (h.2.2.2 (by decide) (by decide)).trans (by decide)⟩

end Fallback

namespace DeviceBuf

/-- C10.  The in-memory `MQTTBuffer.add_message` of the IoT device always
returns `True`; when the queue already holds `max_size` messages the oldest
is dropped before the new message is appended (and is not written anywhere
else — the class has no persistent tier), and otherwise the message is simply
appended; consequently the queue length never exceeds `max_size`. -/
theorem device_buffer_drop_oldest (b : MQTTBuffer) (topic payload : String)
    (hpos : 0 < b.max_size) (hle : b.buffer.length ≤ b.max_size) :
    (add_message b topic payload).2 = true ∧
    (add_message b topic payload).1.buffer.length ≤ b.max_size ∧
    (b.buffer.length = b.max_size →
      (add_message b topic payload).1.buffer =
        b.buffer.drop 1 ++ [⟨topic, payload, 0⟩]) ∧
    (b.buffer.length < b.max_size →
      (add_message b topic payload).1.buffer =
        b.buffer ++ [⟨topic, payload, 0⟩]) := by
  rw [add_message]
  by_cases hf : Fallback.queue_full b.max_size b.buffer.length = true
  · rw [Fallback.queue_full, Bool.and_eq_true, decide_eq_true_eq,
      decide_eq_true_eq] at hf
    rw [if_pos (by
      rw [Fallback.queue_full, Bool.and_eq_true, decide_eq_true_eq, decide_eq_true_eq]
      exact hf)]
    refine ⟨rfl, ?_, ?_, ?_⟩
    · simp only [List.length_append, List.length_drop, List.length_singleton]
      omega
    · intro _; rfl
    · intro hlt; omega
  · rw [if_neg hf]
    rw [Fallback.queue_full, Bool.and_eq_true, decide_eq_true_eq,
      decide_eq_true_eq] at hf
    push_neg at hf
    have hlt : b.buffer.length < b.max_size := by
      rcases Nat.lt_or_ge b.buffer.length b.max_size with h | h
      · exact h
      · exact absurd h (by intro hc; exact absurd (hf hpos).le (by omega))
    refine ⟨rfl, ?_, ?_, ?_⟩
    · simp only [List.length_append, List.length_singleton]
      omega
    · intro heq; omega
    · intro _; rfl

/-- Witness for `device_buffer_drop_oldest`: adding to the full two-slot
buffer returns `True`, keeps the length at 2 and drops the oldest message. -/
theorem device_buffer_drop_oldest_witness :
    (add_message fullDevBuf "t3" "p3").2 = true ∧
    (add_message fullDevBuf "t3" "p3").1.buffer.length ≤ 2 ∧
    (add_message fullDevBuf "t3" "p3").1.buffer =
      [⟨"t2", "p2", 0⟩, ⟨"t3", "p3", 0⟩] := by
  have h := device_buffer_drop_oldest fullDevBuf "t3" "p3" (by decide) (by decide)
  exact ⟨h.1, h.2.1, (h.2.2.1 (by decide)).trans (by decide)⟩

end DeviceBuf

end SmartRetail360

namespace SmartRetail360

namespace Detector

lemma observe_list_cons (s : DetectorState) (v : ℝ) (vs : List ℝ) :
    observe_list s (v :: vs) = observe_list ((detect_anomaly s v).2) vs := by
  rw [observe_list, observe_list, List.foldl_cons]

lemma observe_list_append (s : DetectorState) (l1 l2 : List ℝ) :
    observe_list s (l1 ++ l2) = observe_list (observe_list s l1) l2 := by
  rw [observe_list, observe_list, observe_list, List.foldl_append]

lemma detect_warm_state (s : DetectorState) (v : ℝ)
    (h : s.data_buffer.length < 10) :
    (detect_anomaly s v).2 = update_baseline s v := by
  rw [detect_anomaly, if_pos h]

lemma update_baseline_small (s : DetectorState) (v : ℝ)
    (hw : (s.data_buffer ++ [v]).length ≤ s.window_size)
    (h9 : (s.data_buffer ++ [v]).length < 10) :
    update_baseline s v = { s with data_buffer := s.data_buffer ++ [v] } := by
  have ht : trimmedBuffer s v = s.data_buffer ++ [v] := by
    rw [trimmedBuffer, if_neg (by omega)]
  rw [update_baseline, ht, if_neg (by omega)]

lemma update_baseline_ready (s : DetectorState) (v : ℝ)
    (hw : (s.data_buffer ++ [v]).length ≤ s.window_size)
    (h10 : 10 ≤ (s.data_buffer ++ [v]).length) :
    update_baseline s v =
      { s with
        data_buffer := s.data_buffer ++ [v]
        baseline_mean := npMean (s.data_buffer ++ [v])
        baseline_std := npStd (s.data_buffer ++ [v]) } := by
  have ht : trimmedBuffer s v = s.data_buffer ++ [v] := by
    rw [trimmedBuffer, if_neg (by omega)]
  rw [update_baseline, ht, if_pos h10]

lemma observe_list_warm (vs : List ℝ) (s : DetectorState)
    (h : s.data_buffer.length + vs.length < 10)
    (hw : s.data_buffer.length + vs.length ≤ s.window_size) :
    observe_list s vs = { s with data_buffer := s.data_buffer ++ vs } := by
  induction vs generalizing s with
  | nil =>
    rw [observe_list, List.foldl_nil, List.append_nil]
  | cons v rest ih =>
    rw [observe_list_cons,
      detect_warm_state s v (by simp at h; omega),
      update_baseline_small s v (by simp at hw ⊢; omega) (by simp at h ⊢; omega)]
    rw [ih _ (by simp at h ⊢; omega) (by simp at hw ⊢; omega)]
    simp

lemma ml_predict_anomalies_nil (t : Bool) (v : ℝ) :
    ml_predict_anomalies t v = [] := by
  cases t with
  | false => rfl
  | true =>
    rw [ml_predict_anomalies, if_pos rfl]
    have hm : npMean [v] = v := by
      rw [npMean]
      simp
    rw [if_neg]
    rw [hm, sub_self, abs_zero]
    rw [not_lt]
    exact mul_nonneg (by norm_num) (Real.sqrt_nonneg _)

lemma severityOf_spec (z : ℝ) :
    (severityOf 2.5 z = "critical" ↔ 5 < z) ∧
    (severityOf 2.5 z = "high" ↔ 3.75 < z ∧ z ≤ 5) ∧
    (severityOf 2.5 z = "medium" ↔ 2.5 < z ∧ z ≤ 3.75) ∧
    (severityOf 2.5 z = "low" ↔ z ≤ 2.5) := by
  have e1 : (2.5 : ℝ) * 2 = 5 := by norm_num
  have e2 : (2.5 : ℝ) * 1.5 = 3.75 := by norm_num
  rw [severityOf, e1, e2]
  by_cases h1 : (5 : ℝ) < z
  · rw [if_pos h1]
    refine ⟨iff_of_true rfl h1, iff_of_false (by decide) ?_,
      iff_of_false (by decide) ?_, iff_of_false (by decide) ?_⟩
    · rintro ⟨-, hle⟩
      linarith
    · rintro ⟨-, hle⟩
      linarith
    · intro hle
      linarith
  · rw [if_neg h1]
    by_cases h2 : (3.75 : ℝ) < z
    · rw [if_pos h2]
      refine ⟨iff_of_false (by decide) h1, iff_of_true rfl ⟨h2, by linarith⟩,
        iff_of_false (by decide) ?_, iff_of_false (by decide) ?_⟩
      · rintro ⟨-, hle⟩
        linarith
      · intro hle
        linarith
    · rw [if_neg h2]
      by_cases h3 : (2.5 : ℝ) < z
      · rw [if_pos h3]
        refine ⟨iff_of_false (by decide) h1,
          iff_of_false (by decide) ?_,
          iff_of_true rfl ⟨h3, by linarith⟩, iff_of_false (by decide) ?_⟩
        · rintro ⟨hgt, -⟩
          linarith
        · intro hle
          linarith
      · rw [if_neg h3]
        refine ⟨iff_of_false (by decide) h1,
          iff_of_false (by decide) ?_, iff_of_false (by decide) ?_,
          iff_of_true rfl (by linarith)⟩
        · rintro ⟨hgt, -⟩
          linarith
        · rintro ⟨hgt, -⟩
          linarith

lemma c6_const_mean : npMean c6_const = 22 := by
  rw [npMean, c6_const]
  simp [List.sum_cons]
  norm_num

lemma c6_const_std : npStd c6_const = 0 := by
  rw [npStd, c6_const_mean, c6_const]
  simp [List.sum_cons]

lemma observe_const_state :
    observe_list (DetectorState.init "temperature") c6_const =
      { sensor_type := "temperature", window_size := 50, data_buffer := c6_const,
        threshold_multiplier := 2.5, baseline_mean := 22, baseline_std := 0,
        ml_trained := false } := by
  have hsplit : c6_const =
      ([22, 22, 22, 22, 22, 22, 22, 22, 22] : List ℝ) ++ [22] := by
    rw [c6_const]
    rfl
  rw [hsplit, observe_list_append,
    observe_list_warm ([22, 22, 22, 22, 22, 22, 22, 22, 22] : List ℝ)
      (DetectorState.init "temperature") (by decide) (by decide)]
  rw [observe_list_cons, detect_warm_state _ _ (by decide),
    update_baseline_ready _ _ (by decide) (by decide)]
  rw [observe_list, List.foldl_nil]
  rw [show ((DetectorState.init "temperature").data_buffer ++
      ([22, 22, 22, 22, 22, 22, 22, 22, 22] : List ℝ)) ++ [22] = c6_const from by
    rw [c6_const]
    rfl]
  rw [c6_const_mean, c6_const_std]
  rfl

/-- C6 counterexample.  Feed the detector 10 constant readings of 22 (baseline
mean 22, baseline std 0) and then observe 40.  The code returns
`z_score = 0`, severity `"low"` and `is_anomaly = False`, whereas the claim's
formula `zScore = |value - mean| / max(stdDev, eps)` gives `18 / eps` (e.g.
18,000,000 > 5 at eps = 10^-6, demanding severity `"critical"`): the code has
no epsilon guard and zeroes the z-score on a constant window instead. -/
theorem constant_window_zscore_zero :
    (detect_anomaly (observe_list (DetectorState.init "temperature") c6_const) 40).1.z_score
      = some 0 ∧
    (detect_anomaly (observe_list (DetectorState.init "temperature") c6_const) 40).1.severity
      = "low" ∧
    (detect_anomaly (observe_list (DetectorState.init "temperature") c6_const) 40).1.is_anomaly
      = false ∧
    (0 : ℝ) ≠ |(40 : ℝ) - 22| / max 0 (1 / 1000000) ∧
    (5 : ℝ) < |(40 : ℝ) - 22| / max 0 (1 / 1000000) := by
  have hz : zScoreOf
      { sensor_type := "temperature", window_size := 50, data_buffer := c6_const,
        threshold_multiplier := 2.5, baseline_mean := 22, baseline_std := 0,
        ml_trained := false } 40 = 0 := by
    rw [zScoreOf, if_neg (by norm_num)]
  rw [observe_const_state, detect_anomaly, if_neg (by rw [c6_const]; norm_num)]
  refine ⟨?_, ?_, ?_, ?_, ?_⟩
  · show some (zScoreOf _ 40) = some 0
    rw [hz]
  · show severityOf 2.5 (zScoreOf _ 40) = "low"
    rw [hz]
    exact (severityOf_spec 0).2.2.2.mpr (by norm_num)
  · show decide ((2.5 : ℝ) < zScoreOf _ 40 ∨
      0 < (ml_predict_anomalies false 40).length) = false
    rw [decide_eq_false_iff_not, hz, ml_predict_anomalies_nil]
    rintro (h | h)
    · norm_num at h
    · simp at h
  · rw [show max (0 : ℝ) (1 / 1000000) = 1 / 1000000 by norm_num]
    norm_num
  · rw [show max (0 : ℝ) (1 / 1000000) = 1 / 1000000 by norm_num]
    rw [show |(40 : ℝ) - 22| = 18 by norm_num]
    norm_num

/-- C6 (amended).  For every detector state whose window already holds at
least 10 samples (threshold multiplier 2.5, as constructed), the result of
`detect_anomaly` satisfies: the reported z-score is
`|value - baselineMean| / baselineStdDev` when `baselineStdDev > 0` and `0`
otherwise (the code has no epsilon guard); severity is `"critical"` iff
`z > 5`, `"high"` iff `3.75 < z ≤ 5`, `"medium"` iff `2.5 < z ≤ 3.75`, `"low"`
otherwise; `isAnomaly` holds iff `z > 2.5` (the ML branch never contributes,
since the singleton inference flags nothing); and
`confidence = min (z / 2.5) 1`. -/
theorem classification_formula (s : DetectorState) (v : ℝ)
    (h10 : 10 ≤ s.data_buffer.length) (htm : s.threshold_multiplier = 2.5) :
    (detect_anomaly s v).1.z_score = some (zScoreOf s v) ∧
    (0 < s.baseline_std → zScoreOf s v = |v - s.baseline_mean| / s.baseline_std) ∧
    (s.baseline_std ≤ 0 → zScoreOf s v = 0) ∧
    ((detect_anomaly s v).1.severity = "critical" ↔ 5 < zScoreOf s v) ∧
    ((detect_anomaly s v).1.severity = "high" ↔
      3.75 < zScoreOf s v ∧ zScoreOf s v ≤ 5) ∧
    ((detect_anomaly s v).1.severity = "medium" ↔
      2.5 < zScoreOf s v ∧ zScoreOf s v ≤ 3.75) ∧
    ((detect_anomaly s v).1.severity = "low" ↔ zScoreOf s v ≤ 2.5) ∧
    ((detect_anomaly s v).1.is_anomaly = true ↔ 2.5 < zScoreOf s v) ∧
    (detect_anomaly s v).1.confidence = min (zScoreOf s v / 2.5) 1 := by
  rw [detect_anomaly, if_neg (by omega)]
  have hsev := severityOf_spec (zScoreOf s v)
  refine ⟨rfl, ?_, ?_, ?_, ?_, ?_, ?_, ?_, ?_⟩
  · intro h
    rw [zScoreOf, if_pos h, abs_div, abs_of_pos h]
  · intro h
    rw [zScoreOf, if_neg (not_lt.mpr h)]
  · show severityOf s.threshold_multiplier (zScoreOf s v) = "critical" ↔ _
    rw [htm]
    exact hsev.1
  · show severityOf s.threshold_multiplier (zScoreOf s v) = "high" ↔ _
    rw [htm]
    exact hsev.2.1
  · show severityOf s.threshold_multiplier (zScoreOf s v) = "medium" ↔ _
    rw [htm]
    exact hsev.2.2.1
  · show severityOf s.threshold_multiplier (zScoreOf s v) = "low" ↔ _
    rw [htm]
    exact hsev.2.2.2
  · show decide (s.threshold_multiplier < zScoreOf s v ∨
      0 < (ml_predict_anomalies s.ml_trained v).length) = true ↔ _
    rw [decide_eq_true_eq, htm, ml_predict_anomalies_nil]
    constructor
    · rintro (h | h)
      · exact h
      · simp at h
    · exact Or.inl
  · show min (zScoreOf s v / s.threshold_multiplier) 1 = _
    rw [htm]

/-- Witness for `classification_formula`: on `readyDetector` (ten samples,
mean 22, std 1) the reading 40 has z-score 18, severity `"critical"`,
`isAnomaly = true` and confidence `min (18 / 2.5) 1 = 1`. -/
theorem classification_formula_witness :
    (detect_anomaly readyDetector 40).1.severity = "critical" ∧
    (detect_anomaly readyDetector 40).1.z_score = some 18 ∧
    (detect_anomaly readyDetector 40).1.is_anomaly = true ∧
    (detect_anomaly readyDetector 40).1.confidence = 1 := by
  have h := classification_formula readyDetector 40 (by decide) rfl
  have hz : zScoreOf readyDetector 40 = 18 := by
    rw [zScoreOf, if_pos (by norm_num [readyDetector])]
    show |((40 : ℝ) - 22) / 1| = 18
    rw [show ((40 : ℝ) - 22) / 1 = 18 by norm_num]
    exact abs_of_pos (by norm_num)
  refine ⟨h.2.2.2.1.mpr (by rw [hz]; norm_num), ?_, ?_, ?_⟩
  · rw [h.1, hz]
  · exact h.2.2.2.2.2.2.2.1.mpr (by rw [hz]; norm_num)
  · rw [h.2.2.2.2.2.2.2.2, hz]
    rw [min_eq_right (by norm_num : (1 : ℝ) ≤ 18 / 2.5)]

/-- C5 counterexample.  A fresh detector fed the 9 readings `c5_warm`
(sample mean 22, sample std ≈ 0.94) still has only 9 buffered samples at the
10th `observe` call, so observing 40 takes the warm-up branch: severity is
`"low"`, `isAnomaly = False`, confidence 0 and the result carries no z-score
at all — not `zScore > 5` with severity `"critical"` as claimed. -/
theorem warmup_tenth_reading_low :
    (detect_anomaly (observe_list (DetectorState.init "temperature") c5_warm) 40).1.severity
      = "low" ∧
    (detect_anomaly (observe_list (DetectorState.init "temperature") c5_warm) 40).1.is_anomaly
      = false ∧
    (detect_anomaly (observe_list (DetectorState.init "temperature") c5_warm) 40).1.z_score
      = none ∧
    (detect_anomaly (observe_list (DetectorState.init "temperature") c5_warm) 40).1.confidence
      = 0 := by
  rw [observe_list_warm c5_warm (DetectorState.init "temperature") (by decide) (by decide)]
  rw [detect_anomaly, if_pos (by decide)]
  exact ⟨rfl, rfl, rfl, rfl⟩

lemma c5_full_mean : npMean c5_full = 22 := by
  rw [npMean, c5_full]
  simp [List.sum_cons]
  norm_num

lemma c5_full_std : npStd c5_full = 1 := by
  rw [npStd, c5_full_mean, c5_full]
  simp [List.sum_cons]
  norm_num

lemma observe_full_state :
    observe_list (DetectorState.init "temperature") c5_full =
      { sensor_type := "temperature", window_size := 50, data_buffer := c5_full,
        threshold_multiplier := 2.5, baseline_mean := 22, baseline_std := 1,
        ml_trained := false } := by
  have hsplit : c5_full =
      ([21, 21, 21, 21, 21, 23, 23, 23, 23] : List ℝ) ++ [23] := by
    rw [c5_full]
    rfl
  rw [hsplit, observe_list_append,
    observe_list_warm ([21, 21, 21, 21, 21, 23, 23, 23, 23] : List ℝ)
      (DetectorState.init "temperature") (by decide) (by decide)]
  rw [observe_list_cons, detect_warm_state _ _ (by decide),
    update_baseline_ready _ _ (by decide) (by decide)]
  rw [observe_list, List.foldl_nil]
  rw [show ((DetectorState.init "temperature").data_buffer ++
      ([21, 21, 21, 21, 21, 23, 23, 23, 23] : List ℝ)) ++ [23] = c5_full from by
    rw [c5_full]
    rfl]
  rw [c5_full_mean, c5_full_std]
  rfl

/-- C5 (amended).  After 10 warm-up readings (`c5_full`: mean 22, std 1 — the
warm-up policy needs 10 samples, not 9, before scoring), the next `observe`
of 40 yields z-score 18 > 5, severity `"critical"`, `isAnomaly = true` and
confidence 1. -/
theorem eleventh_reading_critical :
    (detect_anomaly (observe_list (DetectorState.init "temperature") c5_full) 40).1.severity
      = "critical" ∧
    (detect_anomaly (observe_list (DetectorState.init "temperature") c5_full) 40).1.z_score
      = some 18 ∧
    (5 : ℝ) < 18 ∧
    (detect_anomaly (observe_list (DetectorState.init "temperature") c5_full) 40).1.is_anomaly
      = true ∧
    (detect_anomaly (observe_list (DetectorState.init "temperature") c5_full) 40).1.confidence
      = 1 := by
  have hz : zScoreOf
      { sensor_type := "temperature", window_size := 50, data_buffer := c5_full,
        threshold_multiplier := 2.5, baseline_mean := 22, baseline_std := 1,
        ml_trained := false } 40 = 18 := by
    rw [zScoreOf, if_pos (by norm_num)]
    show |((40 : ℝ) - 22) / 1| = 18
    rw [show ((40 : ℝ) - 22) / 1 = 18 by norm_num]
    exact abs_of_pos (by norm_num)
  rw [observe_full_state, detect_anomaly, if_neg (by rw [c5_full]; norm_num)]
  refine ⟨?_, ?_, by norm_num, ?_, ?_⟩
  · show severityOf 2.5 (zScoreOf _ 40) = "critical"
    rw [hz]
    exact (severityOf_spec 18).1.mpr (by norm_num)
  · show some (zScoreOf _ 40) = some 18
    rw [hz]
  · show decide ((2.5 : ℝ) < zScoreOf _ 40 ∨
      0 < (ml_predict_anomalies false 40).length) = true
    rw [decide_eq_true_eq, hz]
    exact Or.inl (by norm_num)
  · show min (zScoreOf _ 40 / 2.5) 1 = 1
    rw [hz]
    rw [min_eq_right (by norm_num : (1 : ℝ) ≤ 18 / 2.5)]

end Detector

namespace Orchestrator

lemma lookupAssoc_mapAssoc_self {β : Type} (l : List (String × β)) (k : String)
    (f : β → β) :
    SmartRetail360.lookupAssoc (mapAssoc l k f) k =
      (SmartRetail360.lookupAssoc l k).map f := by
  induction l with
  | nil => rfl
  | cons p rest ih =>
    obtain ⟨a, b⟩ := p
    by_cases ha : a = k
    · subst ha
      rw [mapAssoc, List.map_cons, if_pos rfl]
      rw [SmartRetail360.lookupAssoc, if_pos rfl]
      rw [SmartRetail360.lookupAssoc, if_pos rfl]
      rfl
    · simp only [mapAssoc, List.map_cons, if_neg ha]
      rw [SmartRetail360.lookupAssoc, if_neg ha, SmartRetail360.lookupAssoc, if_neg ha]
      exact ih

lemma lookupAssoc_mapAssoc_ne {β : Type} (l : List (String × β)) {k key : String}
    (f : β → β) (h : k ≠ key) :
    SmartRetail360.lookupAssoc (mapAssoc l key f) k =
      SmartRetail360.lookupAssoc l k := by
  induction l with
  | nil => rfl
  | cons p rest ih =>
    obtain ⟨a, b⟩ := p
    by_cases ha : a = key
    · simp only [mapAssoc, List.map_cons, if_pos ha]
      rw [SmartRetail360.lookupAssoc, SmartRetail360.lookupAssoc,
        if_neg (ha ▸ Ne.symm h), if_neg (by rw [ha]; exact Ne.symm h)]
      exact ih
    · simp only [mapAssoc, List.map_cons, if_neg ha]
      rw [SmartRetail360.lookupAssoc, SmartRetail360.lookupAssoc]
      by_cases hk : a = k
      · rw [if_pos hk, if_pos hk]
      · rw [if_neg hk, if_neg hk]
        exact ih

lemma lookup_fold_mapAssoc_not_mem {β : Type} (f : β → β) (ds : List String)
    (l : List (String × β)) (k : String) (hk : k ∉ ds) :
    SmartRetail360.lookupAssoc
        (ds.foldl (fun acc did => mapAssoc acc did f) l) k =
      SmartRetail360.lookupAssoc l k := by
  induction ds generalizing l with
  | nil => rfl
  | cons d rest ih =>
    have hkd : k ≠ d := fun h => hk (h ▸ List.mem_cons_self d rest)
    have hkr : k ∉ rest := fun h => hk (List.mem_cons_of_mem d h)
    rw [List.foldl_cons, ih (mapAssoc l d f) hkr, lookupAssoc_mapAssoc_ne l f hkd]

lemma lookup_fold_mapAssoc_mem {β : Type} (f : β → β) (ds : List String)
    (l : List (String × β)) (k : String) (hnd : ds.Nodup) (hk : k ∈ ds) :
    SmartRetail360.lookupAssoc
        (ds.foldl (fun acc did => mapAssoc acc did f) l) k =
      (SmartRetail360.lookupAssoc l k).map f := by
  induction ds generalizing l with
  | nil => cases hk
  | cons d rest ih =>
    rw [List.foldl_cons]
    rcases List.nodup_cons.mp hnd with ⟨hd, hrest⟩
    by_cases hr : k ∈ rest
    · rw [ih (mapAssoc l d f) hrest hr,
        lookupAssoc_mapAssoc_ne l f (fun h => hd (by rw [← h]; exact hr))]
    · have hkd : k = d := by
        rcases List.mem_cons.mp hk with h | h
        · exact h
        · exact absurd h hr
      rw [lookup_fold_mapAssoc_not_mem f rest _ k hr, hkd, lookupAssoc_mapAssoc_self]

/-- C9 counterexample.  In `demoOrch` the cluster `c1` has a live leader
(`n1`, with a two-entry log and `commit_index = 1`).  Triggering the
emergency coordination appends the EmergencyEvent and one
`emergency_coordination` log entry, but the entry lands at index 2 with
`commit_index` still 1, so the number of committed `emergency_coordination`
entries stays 0 — the function never replicates or commits the entry, against
the claim's "exactly one new committed LogEntry". -/
theorem trigger_entry_not_committed :
    (trigger_emergency_coordination demoOrch "c1" "fire").1.emergency_events.length = 1 ∧
    coordCount demoOrch ["n1", "n2", "n3"] = 0 ∧
    coordCount (trigger_emergency_coordination demoOrch "c1" "fire").1
      ["n1", "n2", "n3"] = 1 ∧
    committedCoordCount demoOrch ["n1", "n2", "n3"] = 0 ∧
    committedCoordCount (trigger_emergency_coordination demoOrch "c1" "fire").1
      ["n1", "n2", "n3"] = 0 ∧
    (SmartRetail360.lookupAssoc
        (trigger_emergency_coordination demoOrch "c1" "fire").1.devices "n1").map
      (fun d => d.consensus.map (fun c => (c.commit_index, c.log.length))) =
      some (some (1, 3)) := by
  refine ⟨rfl, rfl, rfl, rfl, rfl, rfl⟩

/-- C9 (amended).  On an unknown clusterId, `trigger_emergency_coordination`
returns the `Cluster not found` error and leaves the state unchanged.  On a
known cluster it appends exactly one EmergencyEvent (status `"active"`,
affected devices = the cluster's members) and offers the
`emergency_coordination` command to every member device's participant: a
leader appends exactly one new log entry at index `len(log)` while its
`commit_index` is unchanged (the entry is appended but not committed — the
function never replicates or commits), and a non-leader participant is left
unchanged. -/
theorem trigger_emergency_effect (o : OrchestratorState) (cid etype : String) :
    (SmartRetail360.lookupAssoc o.clusters cid = none →
      trigger_emergency_coordination o cid etype =
        (o, Except.error "Cluster not found")) ∧
    (∀ c, SmartRetail360.lookupAssoc o.clusters cid = some c →
      (trigger_emergency_coordination o cid etype).1.emergency_events =
        o.emergency_events ++
          [⟨o.emergency_events.length + 1, cid, etype, "active", c.devices⟩] ∧
      (trigger_emergency_coordination o cid etype).1.clusters = o.clusters ∧
      (trigger_emergency_coordination o cid etype).2 =
        Except.ok ⟨o.emergency_events.length + 1, cid, etype, "active", c.devices⟩ ∧
      (c.devices.Nodup →
        ∀ did ∈ c.devices,
          SmartRetail360.lookupAssoc
              (trigger_emergency_coordination o cid etype).1.devices did =
            (SmartRetail360.lookupAssoc o.devices did).map notify_device) ∧
      (∀ did, did ∉ c.devices →
        SmartRetail360.lookupAssoc
            (trigger_emergency_coordination o cid etype).1.devices did =
          SmartRetail360.lookupAssoc o.devices did)) ∧
    (∀ d : Device, ∀ rs : Raft.RaftState, d.consensus = some rs →
      rs.state = Raft.NodeState.leader →
        (notify_device d).consensus =
          some (Raft.appendFold rs ["emergency_coordination"]) ∧
        (Raft.appendFold rs ["emergency_coordination"]).log =
          rs.log ++ [⟨rs.current_term, rs.log.length, "emergency_coordination"⟩] ∧
        (Raft.appendFold rs ["emergency_coordination"]).commit_index =
          rs.commit_index) ∧
    (∀ d : Device, ∀ rs : Raft.RaftState, d.consensus = some rs →
      rs.state ≠ Raft.NodeState.leader → notify_device d = d) := by
  refine ⟨?_, ?_, ?_, ?_⟩
  · intro h
    rw [trigger_emergency_coordination, h]
  · intro c hc
    rw [trigger_emergency_coordination, hc]
    refine ⟨rfl, rfl, rfl, ?_, ?_⟩
    · intro hnd did hdid
      exact lookup_fold_mapAssoc_mem notify_device c.devices o.devices did hnd hdid
    · intro did hdid
      exact lookup_fold_mapAssoc_not_mem notify_device c.devices o.devices did hdid
  · intro d rs hd hlead
    refine ⟨?_, rfl, rfl⟩
    show Option.map _ d.consensus = _
    rw [hd, Option.map_some', Raft.append_entries_fst, if_pos hlead]
  · intro d rs hd hnl
    cases d with
    | mk did cons =>
        simp only at hd
        subst hd
        show Device.mk did (Option.map _ (some rs)) = _
        rw [Option.map_some', Raft.append_entries_fst, if_neg hnl]

/-- Witness for `trigger_emergency_effect`: on the concrete `demoOrch`, the
unknown cluster `nope` yields the error and no change; the known cluster `c1`
gains exactly one active EmergencyEvent covering `n1, n2, n3`; the leader
`n1` ends with one appended `emergency_coordination` entry at index 2 and
`commit_index` still 1; and the follower `n2` is unchanged. -/
theorem trigger_emergency_effect_witness :
    trigger_emergency_coordination demoOrch "nope" "fire" =
      (demoOrch, Except.error "Cluster not found") ∧
    (trigger_emergency_coordination demoOrch "c1" "fire").1.emergency_events =
      [⟨1, "c1", "fire", "active", ["n1", "n2", "n3"]⟩] ∧
    SmartRetail360.lookupAssoc
        (trigger_emergency_coordination demoOrch "c1" "fire").1.devices "n1" =
      (SmartRetail360.lookupAssoc demoOrch.devices "n1").map notify_device ∧
    (Raft.appendFold Raft.demoCommittedState ["emergency_coordination"]).log =
      Raft.demoCommittedState.log ++ [⟨1, 2, "emergency_coordination"⟩] ∧
    (Raft.appendFold Raft.demoCommittedState ["emergency_coordination"]).commit_index =
      Raft.demoCommittedState.commit_index ∧
    notify_device ⟨"n2", some (Raft.RaftState.init "n2" Raft.demoNodes)⟩ =
      ⟨"n2", some (Raft.RaftState.init "n2" Raft.demoNodes)⟩ := by
  have h := trigger_emergency_effect demoOrch "nope" "fire"
  have h2 := trigger_emergency_effect demoOrch "c1" "fire"
  have hc : SmartRetail360.lookupAssoc demoOrch.clusters "c1" =
      some ⟨"c1", "zone-a", ["n1", "n2", "n3"]⟩ := rfl
  have hk := h2.2.1 ⟨"c1", "zone-a", ["n1", "n2", "n3"]⟩ hc
  have hlead := h2.2.2.1 ⟨"n1", some Raft.demoCommittedState⟩ Raft.demoCommittedState
    rfl (by rfl)
  refine ⟨h.1 rfl, ?_, ?_, ?_, hlead.2.2, ?_⟩
  · rw [hk.1]
    rfl
  · exact hk.2.2.2.1 (by decide) "n1" (by decide)
  · rw [hlead.2.1]
    rfl
  · exact h2.2.2.2 ⟨"n2", some (Raft.RaftState.init "n2" Raft.demoNodes)⟩
      (Raft.RaftState.init "n2" Raft.demoNodes) rfl (by decide)

end Orchestrator

end SmartRetail360
